import Mathlib

/-!
Shallow embedding of fireworks/user_objects/queue_adapters/common_adapter.py
(class CommonAdapter), together with proofs about its behaviour.

Python strings are Lean String values; Python exceptions are modelled by
Except PyErr; the external collaborators (os.path, subprocess.Popen, the
Command runner from fireworks.queue.queue_adapter, and the logger from
fireworks.utilities.fw_utilities, none of which live in this tree) are
modelled as explicit function arguments and as returned lists of log events
and launched commands.
-/

/-- Python exception values that the adapter code can raise. -/
inductive PyErr where
  | valueError (msg : String)
  | keyError (key : String)
  | indexError
  | nameError (name : String)
  | runtimeError (msg : String)
deriving DecidableEq, Repr

/-- A parsed job id: SLURM returns an int, PBS and SGE return text. -/
inductive JobId where
  | intId (n : Int)
  | strId (s : String)
deriving DecidableEq, Repr

/-- Events sent to the logger collaborator. -/
inductive LogEvent where
  | info (msg : String)
  | error (msgs : List String)
  | exception (msg : String)
deriving DecidableEq, Repr

/-- Whitespace characters recognised by Python str.split with no argument
(ASCII subset, which covers all inputs in this module). -/
def isPySpace (c : Char) : Bool :=
  c = ' ' || c = '\t' || c = '\n' || c = '\r' || c = '\x0b' || c = '\x0c'

/-- Helper for pySplit: accumulates the current token (reversed). -/
def splitWsAux : List Char → List Char → List (List Char)
  | [], [] => []
  | [], cur => [cur.reverse]
  | c :: cs, cur =>
    if isPySpace c then
      match cur with
      | [] => splitWsAux cs []
      | _ => cur.reverse :: splitWsAux cs []
    else splitWsAux cs (c :: cur)

/-- Python str.split with no argument: split on runs of whitespace,
discarding empty tokens. -/
def pySplit (s : String) : List String :=
  (splitWsAux s.toList []).map String.mk

/-- Helper for pyLines: accumulates the current line (reversed). -/
def splitNl : List Char → List Char → List String
  | [], cur => [String.mk cur.reverse]
  | c :: cs, cur =>
    if c = '\n' then String.mk cur.reverse :: splitNl cs []
    else splitNl cs (c :: cur)

/-- Python s.split of a string on the newline character: keeps empty pieces,
and the split of the empty string is one empty piece. -/
def pyLines (s : String) : List String :=
  splitNl s.toList []

/-- listStarts a b is true when a is an initial segment of b. -/
def listStarts : List Char → List Char → Bool
  | [], _ => true
  | _ :: _, [] => false
  | a :: as, b :: bs => if a = b then listStarts as bs else false

/-- listSub n h is true when n occurs contiguously inside h. -/
def listSub : List Char → List Char → Bool
  | n, [] => n.isEmpty
  | n, c :: t => if listStarts n (c :: t) then true else listSub n t

/-- The Python membership test needle in hay on strings: substring search. -/
def pyIn (needle hay : String) : Bool :=
  listSub needle.toList hay.toList

/-- Python s.startswith(pre). -/
def pyStartsWith (s pre : String) : Bool :=
  listStarts pre.toList s.toList

/-- ASCII lower-casing of one character, the fragment of Python str.lower
exercised by this module. -/
def lowChar (c : Char) : Char :=
  if 65 ≤ c.toNat ∧ c.toNat ≤ 90 then Char.ofNat (c.toNat + 32) else c

/-- Python s.lower() on the ASCII range. -/
def pyLower (s : String) : String :=
  String.mk (s.toList.map lowChar)

/-- Python s[0:n] for a nonnegative n. -/
def pyTake (s : String) (n : Nat) : String :=
  String.mk (s.toList.take n)

/-- Python int(s) on a decimal token: optional surrounding whitespace,
optional sign, then a nonempty run of digits; none models ValueError. -/
def pyInt (s : String) : Option Int :=
  let cs := ((s.toList.dropWhile isPySpace).reverse.dropWhile isPySpace).reverse
  let (neg, ds) :=
    match cs with
    | '-' :: rest => (true, rest)
    | '+' :: rest => (false, rest)
    | _ => (false, cs)
  if ds.isEmpty then none
  else if ds.all Char.isDigit then
    let n : Nat := ds.foldl (fun acc c => acc * 10 + (c.toNat - 48)) 0
    some (if neg then -(n : Int) else (n : Int))
  else none

/-- The first maximal run of decimal digits in s, the match of the Python
regular expression search for one or more digits; none when s has no digit. -/
def firstDigitRunAux : List Char → Option String
  | [] => none
  | c :: cs =>
    if c.isDigit then some (String.mk (c :: cs.takeWhile Char.isDigit))
    else firstDigitRunAux cs

/-- re.search for a digit run applied to s, returning the matched group. -/
def firstDigitRun (s : String) : Option String :=
  firstDigitRunAux s.toList

/-- Python list.index: position of the first occurrence, ValueError if the
element is absent. -/
def listIndex (l : List String) (x : String) : Except PyErr Nat :=
  match l with
  | [] => Except.error (PyErr.valueError (x ++ " is not in list"))
  | y :: ys =>
    if y = x then Except.ok 0
    else (listIndex ys x).map (· + 1)

/-- Python list subscripting with an Int index: negative indices count from
the end; out of range raises IndexError. -/
def pyGetItem (l : List String) (i : Int) : Except PyErr String :=
  let j : Int := if i < 0 then i + l.length else i
  if j < 0 then Except.error PyErr.indexError
  else
    match l.get? j.toNat with
    | some x => Except.ok x
    | none => Except.error PyErr.indexError

/-- Reading a Python local variable that the control flow may have left
unassigned: none models the NameError raised on an unbound name. -/
def pyName (x : Option Int) (n : String) : Except PyErr Int :=
  match x with
  | some v => Except.ok v
  | none => Except.error (PyErr.nameError n)

/-- Lookup in the open-configuration dict of the adapter (Python d[k] and
d.get(k), and the membership test k in d via isSome). -/
def dictGet? (d : List (String × String)) (k : String) : Option String :=
  match d with
  | [] => none
  | p :: rest => if p.1 = k then some p.2 else dictGet? rest k

/-- Python ordered-dict assignment d[k] = v: replace in place when the key
is present, append otherwise. -/
def dictSet (d : List (String × String)) (k v : String) : List (String × String) :=
  match d with
  | [] => [(k, v)]
  | p :: rest => if p.1 = k then (k, v) :: rest else p :: dictSet rest k v

/-- Python dict.update applied entry by entry. -/
def dictUpdate (d : List (String × String)) (l : List (String × String)) :
    List (String × String) :=
  l.foldl (fun acc p => dictSet acc p.1 p.2) d

/-- The dict invariant: every key occurs at most once. -/
def keysNodup (d : List (String × String)) : Prop :=
  (d.map Prod.fst).Nodup

/-- The pieces of the operating-system environment the adapter reads:
os.path.abspath, and the directory of the adapter module itself
(os.path.dirname applied to the module path), used for default templates. -/
structure OsEnv where
  abspath : String → String
  fileDir : String

/-- CommonAdapter.supported_q_types from the source. -/
def supported_q_types : List String := ["PBS", "SGE", "SLURM"]

/-- CommonAdapter._get_default_template_file: os.path.join of the module
directory with the name built from the queue type (POSIX join). -/
def default_template_file (env : OsEnv) (q_type : String) : String :=
  env.fileDir ++ "/" ++ q_type ++ "_template.txt"

/-- The ValueError message raised for an unsupported queue type. The source
formats the supported list through Python str formatting of the list value;
the list is rendered here as plain text. -/
def unsupportedMsg (q_type : String) : String :=
  q_type ++ " is not a supported queue type. CommonAdaptor supports PBS, SGE, SLURM"

/-- The state of a CommonAdapter instance. The q_type, template_file,
submit_cmd and q_name fields are the instance attributes set in the
constructor; cfg is the dict contents of the instance (CommonAdapter
subclasses dict through QueueAdapterBase, and the constructor stores the
open keyword configuration there via self.update). -/
structure CommonAdapter where
  q_type : String
  template_file : String
  submit_cmd : String
  q_name : String
  cfg : List (String × String)
deriving DecidableEq, Repr

/-- CommonAdapter.__init__. Raises ValueError when the queue type is not
supported; resolves the template file through os.path.abspath when given,
the built-in default otherwise; derives the submit command from the queue
type; q_name falls back to q_type when the given name is None or empty
(Python truthiness); stores the keyword arguments as the dict contents. -/
def CommonAdapter.init (env : OsEnv) (q_type : String) (q_name : Option String)
    (template_file : Option String) (kwargs : List (String × String)) :
    Except PyErr CommonAdapter :=
  if q_type ∈ supported_q_types then
    Except.ok
      { q_type := q_type
        template_file :=
          match template_file with
          | some t => env.abspath t
          | none => default_template_file env q_type
        submit_cmd := if q_type = "SLURM" then "sbatch" else "qsub"
        q_name :=
          match q_name with
          | some n => if n = "" then q_type else n
          | none => q_type
        cfg := dictUpdate [] kwargs }
  else Except.error (PyErr.valueError (unsupportedMsg q_type))

/-- The adapter produced by a successful construction, named so that
statements can speak about it without re-elaborating the structure. -/
def initResult (env : OsEnv) (q_type : String) (q_name : Option String)
    (template_file : Option String) (kwargs : List (String × String)) :
    CommonAdapter :=
  { q_type := q_type
    template_file :=
      match template_file with
      | some t => env.abspath t
      | none => default_template_file env q_type
    submit_cmd := if q_type = "SLURM" then "sbatch" else "qsub"
    q_name :=
      match q_name with
      | some n => if n = "" then q_type else n
      | none => q_type
    cfg := dictUpdate [] kwargs }

/-- CommonAdapter._parse_jobid. SLURM: int of the 4th whitespace token of
the output (IndexError when there are fewer than 4 tokens, ValueError when
the token is not an integer literal). PBS and SGE: the first digit run,
returned as text; RuntimeError when the output holds no digit. -/
def CommonAdapter.parse_jobid (a : CommonAdapter) (output_str : String) :
    Except PyErr JobId :=
  if a.q_type = "SLURM" then
    match pyGetItem (pySplit output_str) 3 with
    | Except.error e => Except.error e
    | Except.ok t =>
      match pyInt t with
      | some n => Except.ok (JobId.intId n)
      | none => Except.error (PyErr.valueError ("invalid literal for int: " ++ t))
  else
    match firstDigitRun output_str with
    | some s => Except.ok (JobId.strId s)
    | none => Except.error (PyErr.runtimeError "Unable to parse jobid")

/-- CommonAdapter._get_status_cmd. Note that in the source the squeue
format option and its value form one single argv element containing literal
double quotes. -/
def CommonAdapter.get_status_cmd (a : CommonAdapter) (username : String) :
    List String :=
  if a.q_type = "SLURM" then ["squeue", "-o \"%u\"", "-u", username]
  else ["qstat", "-u", username]

/-- The loop state of the PBS and SGE branch of _parse_njobs: the running
count and the two local variables that the header branch may or may not
have assigned (none models a still-unbound Python local). -/
structure NjobsSt where
  count : Nat
  state_idx : Option Int
  queue_idx : Option Int

/-- One iteration of the PBS and SGE line loop of _parse_njobs. A line
whose lower-casing starts with job is parsed as a header: PBS locates the
tokens S and Queue and subtracts one from each position (the header has the
two-word Job ID column), SGE locates the tokens state and queue directly;
list.index raises ValueError on a missing token. A line containing the
username is then tokenised; reading the state token raises NameError when
no header has been seen, or IndexError when the row is short; a row whose
state is not C is counted only when a queue key is configured whose value,
truncated to the length of the observed queue token, occurs inside that
token (the source has no else branch counting rows when no queue key is
configured). -/
def njobsLine (a : CommonAdapter) (username : String) (st : NjobsSt)
    (l : String) : Except PyErr NjobsSt := do
  let st ←
    if pyStartsWith (pyLower l) "job" then do
      let header := pySplit l
      if a.q_type = "PBS" then do
        let i ← listIndex header "S"
        let j ← listIndex header "Queue"
        Except.ok { st with state_idx := some ((i : Int) - 1),
                            queue_idx := some ((j : Int) - 1) }
      else do
        let i ← listIndex header "state"
        let j ← listIndex header "queue"
        Except.ok { st with state_idx := some (i : Int),
                            queue_idx := some (j : Int) }
    else Except.ok st
  if pyIn username l then
    let toks := pySplit l
    let si ← pyName st.state_idx "state_index"
    let s ← pyGetItem toks si
    if s ≠ "C" then
      match dictGet? a.cfg "queue" with
      | some qv => do
          let qi ← pyName st.queue_idx "queue_index"
          let qtok ← pyGetItem toks qi
          if pyIn (pyTake qv qtok.length) qtok then
            Except.ok { st with count := st.count + 1 }
          else Except.ok st
      | none => Except.ok st
    else Except.ok st
  else Except.ok st

/-- The PBS and SGE line loop of _parse_njobs. -/
def njobsFold (a : CommonAdapter) (username : String) :
    NjobsSt → List String → Except PyErr NjobsSt
  | st, [] => Except.ok st
  | st, l :: rest => do
    let st2 ← njobsLine a username st l
    njobsFold a username st2 rest

/-- CommonAdapter._parse_njobs. SLURM: the number of lines containing the
username. PBS and SGE: the line loop above starting from count zero with
both column indices unbound. -/
def CommonAdapter.parse_njobs (a : CommonAdapter) (output_str username : String) :
    Except PyErr Nat :=
  if a.q_type = "SLURM" then
    Except.ok ((pyLines output_str).filter (fun line => pyIn username line)).length
  else do
    let st ← njobsFold a username ⟨0, none, none⟩ (pyLines output_str)
    Except.ok st.count

/-- Rendering of a job id into the success log message. -/
def jobIdStr : JobId → String
  | JobId.intId n => toString n
  | JobId.strId s => s

/-- Rendering of an argv list into the submit-error log message (the source
formats the Python list value; the quoting of its elements is omitted). -/
def cmdRepr (cmd : List String) : String :=
  "[" ++ joinComma cmd ++ "]"
where
  joinComma : List String → String
    | [] => ""
    | [x] => x
    | x :: xs => x ++ ", " ++ joinComma xs

/-- CommonAdapter.submit_to_queue. The filesystem test os.path.exists and
subprocess.Popen are passed in as collaborators; popen returning none
models an exception while launching the command (for example, no such
binary). The result carries the Python return value (None is modelled by
Option), the log events emitted, and the list of commands launched, in
order. A missing script raises ValueError before any launch; every failure
after that point is caught, logged, and yields None. -/
def CommonAdapter.submit_to_queue (a : CommonAdapter)
    (exists_file : String → Bool)
    (popen : List String → Option (Int × String × String))
    (script_file : String) :
    Except PyErr (Option JobId) × List LogEvent × List (List String) :=
  if exists_file script_file = false then
    (Except.error (PyErr.valueError ("Cannot find script file located at: " ++ script_file)),
     [], [])
  else
    let cmd := [a.submit_cmd, script_file]
    match popen cmd with
    | none =>
      (Except.ok none,
       [LogEvent.exception ("Running the command: " ++ a.submit_cmd ++ " caused an error...")],
       [cmd])
    | some pr =>
      if pr.1 = 0 then
        match a.parse_jobid pr.2.1 with
        | Except.ok job_id =>
          (Except.ok (some job_id),
           [LogEvent.info ("Job submission was successful and job_id is " ++ jobIdStr job_id)],
           [cmd])
        | Except.error _ =>
          (Except.ok none,
           [LogEvent.exception ("Could not parse job id following " ++ a.submit_cmd ++ "...")],
           [cmd])
      else
        (Except.ok none,
         [LogEvent.error
            ["Error in job submission with " ++ a.q_name ++ " file " ++ script_file ++
               " and cmd " ++ cmdRepr cmd,
             "The error response reads: " ++ pr.2.2]],
         [cmd])

/-- CommonAdapter.get_njobs_in_queue. The status command is run through the
Command collaborator of fireworks.queue.queue_adapter (not part of this
tree), modelled by its result triple p = (returncode, stdout, stderr); per
the specification a timeout surfaces as a nonzero returncode. On returncode
zero the output is parsed (a parse exception propagates, the source has no
handler here); otherwise an error is logged and None returned. -/
def CommonAdapter.get_njobs_in_queue (a : CommonAdapter) (username : String)
    (p : Int × String × String) : Except PyErr (Option Nat) × List LogEvent :=
  if p.1 = 0 then
    match a.parse_njobs p.2.1 username with
    | Except.ok njobs =>
      (Except.ok (some njobs),
       [LogEvent.info ("The number of jobs currently in the queue is: " ++ toString njobs)])
    | Except.error e => (Except.error e, [])
  else
    (Except.ok none,
     [LogEvent.error ["Error trying to get the number of jobs in the queue",
                      "The error response reads: " ++ p.2.2]])

/-- CommonAdapter.to_dict: the dict contents of the instance, with the
reserved keys for the queue type and, only when they differ from their
defaults, the queue name and template file, assigned on top. The
serialize_fw decorator (fireworks.utilities.fw_serializers, outside this
tree) additionally assigns bookkeeping keys under the same reserved prefix,
which from_dict strips again; it is omitted here. -/
def CommonAdapter.to_dict (env : OsEnv) (a : CommonAdapter) :
    List (String × String) :=
  let d := a.cfg
  let d := dictSet d "_fw_q_type" a.q_type
  let d := if a.q_name ≠ a.q_type then dictSet d "_fw_q_name" a.q_name else d
  let d :=
    if a.template_file ≠ default_template_file env a.q_type then
      dictSet d "_fw_template_file" a.template_file
    else d
  d

/-- CommonAdapter.from_dict: reads the reserved queue-type key (KeyError
when absent), the optional reserved name and template keys, and passes
every key not starting with the reserved prefix back through the
constructor. -/
def CommonAdapter.from_dict (env : OsEnv) (m : List (String × String)) :
    Except PyErr CommonAdapter :=
  match dictGet? m "_fw_q_type" with
  | none => Except.error (PyErr.keyError "_fw_q_type")
  | some qt =>
    CommonAdapter.init env qt (dictGet? m "_fw_q_name") (dictGet? m "_fw_template_file")
      (m.filter (fun p => ! pyStartsWith p.1 "_fw"))

/-- A concrete environment for witnesses: an identity abspath (idempotent,
as the real os.path.abspath is on its own outputs) and a fixed module
directory. -/
def env0 : OsEnv :=
  { abspath := fun s => s, fileDir := "QADIR" }

/-- A PBS adapter as built by the constructor with no open configuration. -/
def pbsA : CommonAdapter :=
  { q_type := "PBS", template_file := "QADIR/PBS_template.txt",
    submit_cmd := "qsub", q_name := "PBS", cfg := [] }

/-- A PBS adapter with a configured queue option. -/
def pbsQA : CommonAdapter :=
  { q_type := "PBS", template_file := "QADIR/PBS_template.txt",
    submit_cmd := "qsub", q_name := "PBS", cfg := [("queue", "batch")] }

/-- An SGE adapter as built by the constructor. -/
def sgeA : CommonAdapter :=
  { q_type := "SGE", template_file := "QADIR/SGE_template.txt",
    submit_cmd := "qsub", q_name := "SGE", cfg := [] }

/-- A SLURM adapter as built by the constructor. -/
def slurmA : CommonAdapter :=
  { q_type := "SLURM", template_file := "QADIR/SLURM_template.txt",
    submit_cmd := "sbatch", q_name := "SLURM", cfg := [] }

/-- A qstat status table: header row and one running row for user bob. -/
def qstatOut : String :=
  "Job ID Username Queue Jobname SessID NDS TSK Memory Time S Time\n" ++
  "1234.host bob batch job1 123 1 1 1gb 10:00 R 00:01"

/-- The adapter built with an open-configuration key that lies inside the
reserved prefix namespace, as the constructor accepts it. -/
def c2a : CommonAdapter :=
  { q_type := "PBS", template_file := "QADIR/PBS_template.txt",
    submit_cmd := "qsub", q_name := "PBS", cfg := [("_fw_q_name", "sneaky")] }

/-- An SGE adapter with a custom name, template and one queue directive. -/
def c2w : CommonAdapter :=
  { q_type := "SGE", template_file := "/tmp/tpl.txt", submit_cmd := "qsub",
    q_name := "fast", cfg := [("walltime", "1:00:00")] }

theorem mem_keys_dictSet {d : List (String × String)} {k v x : String}
    (hx : x ∈ (dictSet d k v).map Prod.fst) : x = k ∨ x ∈ d.map Prod.fst := by
  induction d with
  | nil =>
    simp [dictSet] at hx
    exact Or.inl hx
  | cons p rest ih =>
    by_cases h : p.1 = k
    · simp only [dictSet, if_pos h, List.map_cons, List.mem_cons] at hx ⊢
      rcases hx with hx | hx
      · exact Or.inl hx
      · exact Or.inr (Or.inr hx)
    · simp only [dictSet, if_neg h, List.map_cons, List.mem_cons] at hx ⊢
      rcases hx with hx | hx
      · exact Or.inr (Or.inl hx)
      · rcases ih hx with hx | hx
        · exact Or.inl hx
        · exact Or.inr (Or.inr hx)

theorem keysNodup_dictSet {d : List (String × String)} (k v : String)
    (h : keysNodup d) : keysNodup (dictSet d k v) := by
  induction d with
  | nil => simp [dictSet, keysNodup]
  | cons p rest ih =>
    unfold keysNodup at h ⊢
    simp only [List.map_cons, List.nodup_cons] at h
    by_cases hp : p.1 = k
    · simp only [dictSet, if_pos hp, List.map_cons, List.nodup_cons]
      exact ⟨hp ▸ h.1, h.2⟩
    · simp only [dictSet, if_neg hp, List.map_cons, List.nodup_cons]
      refine ⟨fun hmem => ?_, ih h.2⟩
      rcases mem_keys_dictSet hmem with hx | hx
      · exact hp hx
      · exact h.1 hx

theorem keysNodup_dictUpdate {l : List (String × String)} :
    ∀ {d : List (String × String)}, keysNodup d → keysNodup (dictUpdate d l) := by
  induction l with
  | nil => intro d h; exact h
  | cons p rest ih =>
    intro d h
    simp only [dictUpdate, List.foldl_cons]
    exact ih (keysNodup_dictSet p.1 p.2 h)

theorem dictSet_append_new {d : List (String × String)} {k : String} (v : String)
    (h : ∀ p ∈ d, p.1 ≠ k) : dictSet d k v = d ++ [(k, v)] := by
  induction d with
  | nil => rfl
  | cons p rest ih =>
    have hp : p.1 ≠ k := h p (List.mem_cons_self p rest)
    simp only [dictSet, if_neg hp, List.cons_append, List.cons.injEq, true_and]
    exact ih (fun q hq => h q (List.mem_cons_of_mem p hq))

theorem dictUpdate_eq_append {l : List (String × String)} :
    ∀ {d : List (String × String)}, (∀ p ∈ l, ∀ q ∈ d, q.1 ≠ p.1) →
      keysNodup l → dictUpdate d l = d ++ l := by
  induction l with
  | nil => intro d _ _; simp [dictUpdate]
  | cons p rest ih =>
    intro d hdisj hnd
    unfold keysNodup at hnd
    simp only [List.map_cons, List.nodup_cons] at hnd
    simp only [dictUpdate, List.foldl_cons]
    have h1 : dictSet d p.1 p.2 = d ++ [p] :=
      dictSet_append_new p.2 (fun q hq => hdisj p (List.mem_cons_self p rest) q hq)
    rw [h1]
    have h2 : dictUpdate (d ++ [p]) rest = (d ++ [p]) ++ rest := by
      apply ih
      · intro x hx q hq
        rcases List.mem_append.mp hq with hq | hq
        · exact hdisj x (List.mem_cons_of_mem p hx) q hq
        · have : q = p := by simpa using hq
          subst this
          intro he
          exact hnd.1 (he ▸ List.mem_map_of_mem Prod.fst hx)
      · exact hnd.2
    simp only [dictUpdate] at h2
    rw [h2, List.append_assoc, List.singleton_append]

theorem dictUpdate_nil_of_nodup {l : List (String × String)} (h : keysNodup l) :
    dictUpdate [] l = l := by
  have := dictUpdate_eq_append (d := []) (fun p _ q hq => absurd hq (List.not_mem_nil q)) h
  simpa using this

theorem dictGet?_append_of_not_mem {d e : List (String × String)} {k : String}
    (h : ∀ p ∈ d, p.1 ≠ k) : dictGet? (d ++ e) k = dictGet? e k := by
  induction d with
  | nil => rfl
  | cons p rest ih =>
    have hp : p.1 ≠ k := h p (List.mem_cons_self p rest)
    simp only [List.cons_append, dictGet?, if_neg hp]
    exact ih (fun q hq => h q (List.mem_cons_of_mem p hq))

theorem filter_eq_self_of_all {α : Type} (p : α → Bool) {l : List α}
    (h : ∀ x ∈ l, p x = true) : l.filter p = l := by
  induction l with
  | nil => rfl
  | cons a rest ih =>
    have ha := h a (List.mem_cons_self a rest)
    simp only [List.filter, ha]
    rw [ih (fun x hx => h x (List.mem_cons_of_mem a hx))]

theorem cfg_key_ne {cfg : List (String × String)}
    (hfw : ∀ p ∈ cfg, pyStartsWith p.1 "_fw" = false)
    {k : String} (hk : pyStartsWith k "_fw" = true) :
    ∀ p ∈ cfg, p.1 ≠ k := by
  intro p hp he
  have h1 := hfw p hp
  rw [he, hk] at h1
  cases h1

theorem from_dict_eval (env : OsEnv) (m : List (String × String)) (qt : String)
    (h1 : dictGet? m "_fw_q_type" = some qt) :
    CommonAdapter.from_dict env m =
      CommonAdapter.init env qt (dictGet? m "_fw_q_name")
        (dictGet? m "_fw_template_file")
        (m.filter (fun p => ! pyStartsWith p.1 "_fw")) := by
  unfold CommonAdapter.from_dict
  rw [h1]

theorem init_fields (env : OsEnv) (qt : String) (qn tf : Option String)
    (kw : List (String × String)) (hsup : qt ∈ supported_q_types) :
    CommonAdapter.init env qt qn tf kw = Except.ok
      { q_type := qt,
        template_file :=
          match tf with
          | some t => env.abspath t
          | none => default_template_file env qt,
        submit_cmd := if qt = "SLURM" then "sbatch" else "qsub",
        q_name :=
          match qn with
          | some n => if n = "" then qt else n
          | none => qt,
        cfg := dictUpdate [] kw } := by
  unfold CommonAdapter.init
  rw [if_pos hsup]

theorem keys_ne_append {d e : List (String × String)} {k : String}
    (hd : ∀ p ∈ d, p.1 ≠ k) (he : ∀ p ∈ e, p.1 ≠ k) :
    ∀ p ∈ d ++ e, p.1 ≠ k := by
  intro p hp
  rcases List.mem_append.mp hp with h | h
  · exact hd p h
  · exact he p h

theorem keys_ne_singleton {k2 : String} (v : String) {k : String} (h : k2 ≠ k) :
    ∀ p ∈ [(k2, v)], p.1 ≠ k := by
  intro p hp
  have hp2 : p = (k2, v) := by simpa using hp
  subst hp2
  exact h

theorem round_trip_core (env : OsEnv)
    (hab : ∀ s, env.abspath (env.abspath s) = env.abspath s)
    (a : CommonAdapter)
    (hsup : a.q_type ∈ supported_q_types)
    (hsc : a.submit_cmd = if a.q_type = "SLURM" then "sbatch" else "qsub")
    (hnodup : keysNodup a.cfg)
    (hfw : ∀ p ∈ a.cfg, pyStartsWith p.1 "_fw" = false)
    (htmpl : a.template_file = default_template_file env a.q_type ∨
             ∃ t, a.template_file = env.abspath t)
    (hqn : a.q_name ≠ a.q_type → a.q_name ≠ "") :
    CommonAdapter.from_dict env (CommonAdapter.to_dict env a) = Except.ok a := by
  obtain ⟨qt, tf, sc, qn, cfg⟩ := a
  dsimp only at hsup hsc hnodup hfw htmpl hqn
  have hne1 : ∀ p ∈ cfg, p.1 ≠ "_fw_q_type" := cfg_key_ne hfw rfl
  have hne2 : ∀ p ∈ cfg, p.1 ≠ "_fw_q_name" := cfg_key_ne hfw rfl
  have hne3 : ∀ p ∈ cfg, p.1 ≠ "_fw_template_file" := cfg_key_ne hfw rfl
  have hcfg : dictUpdate [] cfg = cfg := dictUpdate_nil_of_nodup hnodup
  have hfilter : ∀ tail : List (String × String),
      List.filter (fun p => ! pyStartsWith p.1 "_fw") tail = [] →
      List.filter (fun p => ! pyStartsWith p.1 "_fw") (cfg ++ tail) = cfg := by
    intro tail htail
    rw [List.filter_append, htail, List.append_nil]
    exact filter_eq_self_of_all _ (fun x hx => by rw [hfw x hx]; rfl)
  by_cases hq : qn = qt <;> by_cases ht : tf = default_template_file env qt
  · -- name and template both at their defaults: only the type key is added
    have hm : CommonAdapter.to_dict env ⟨qt, tf, sc, qn, cfg⟩ =
        cfg ++ [("_fw_q_type", qt)] := by
      simp only [CommonAdapter.to_dict]
      rw [if_neg (by simp [ht]), if_neg (by simp [hq])]
      exact dictSet_append_new qt hne1
    have h1 : dictGet? (cfg ++ [("_fw_q_type", qt)]) "_fw_q_type" = some qt := by
      rw [dictGet?_append_of_not_mem hne1]
      exact rfl
    have hname : dictGet? (cfg ++ [("_fw_q_type", qt)]) "_fw_q_name" = none := by
      rw [dictGet?_append_of_not_mem hne2]
      exact rfl
    have htf2 : dictGet? (cfg ++ [("_fw_q_type", qt)]) "_fw_template_file" = none := by
      rw [dictGet?_append_of_not_mem hne3]
      exact rfl
    have hfil : List.filter (fun p => ! pyStartsWith p.1 "_fw")
        (cfg ++ [("_fw_q_type", qt)]) = cfg := hfilter _ (by exact rfl)
    rw [hm, from_dict_eval env _ qt h1, hname, htf2, hfil,
        init_fields env qt none none cfg hsup]
    simp only [Except.ok.injEq, CommonAdapter.mk.injEq, eq_self_iff_true, true_and]
    exact ⟨ht.symm, hsc.symm, hq.symm, hcfg⟩
  · -- template differs from the default
    have hne3t : ∀ p ∈ cfg ++ [("_fw_q_type", qt)], p.1 ≠ "_fw_template_file" :=
      keys_ne_append hne3 (keys_ne_singleton qt (by decide))
    have hm : CommonAdapter.to_dict env ⟨qt, tf, sc, qn, cfg⟩ =
        cfg ++ [("_fw_q_type", qt), ("_fw_template_file", tf)] := by
      simp only [CommonAdapter.to_dict]
      rw [if_pos ht, if_neg (by simp [hq]), dictSet_append_new qt hne1,
          dictSet_append_new tf hne3t, List.append_assoc]
      exact rfl
    have h1 : dictGet? (cfg ++ [("_fw_q_type", qt), ("_fw_template_file", tf)])
        "_fw_q_type" = some qt := by
      rw [dictGet?_append_of_not_mem hne1]
      exact rfl
    have hname : dictGet? (cfg ++ [("_fw_q_type", qt), ("_fw_template_file", tf)])
        "_fw_q_name" = none := by
      rw [dictGet?_append_of_not_mem hne2]
      exact rfl
    have htf2 : dictGet? (cfg ++ [("_fw_q_type", qt), ("_fw_template_file", tf)])
        "_fw_template_file" = some tf := by
      rw [dictGet?_append_of_not_mem hne3]
      exact rfl
    have hfil : List.filter (fun p => ! pyStartsWith p.1 "_fw")
        (cfg ++ [("_fw_q_type", qt), ("_fw_template_file", tf)]) = cfg :=
      hfilter _ (by exact rfl)
    rw [hm, from_dict_eval env _ qt h1, hname, htf2, hfil,
        init_fields env qt none (some tf) cfg hsup]
    simp only [Except.ok.injEq, CommonAdapter.mk.injEq, eq_self_iff_true, true_and]
    refine ⟨?_, hsc.symm, hq.symm, hcfg⟩
    rcases htmpl with h | ⟨t, htt⟩
    · exact absurd h ht
    · rw [htt, hab t]
  · -- name differs from the default
    have hne2t : ∀ p ∈ cfg ++ [("_fw_q_type", qt)], p.1 ≠ "_fw_q_name" :=
      keys_ne_append hne2 (keys_ne_singleton qt (by decide))
    have hm : CommonAdapter.to_dict env ⟨qt, tf, sc, qn, cfg⟩ =
        cfg ++ [("_fw_q_type", qt), ("_fw_q_name", qn)] := by
      simp only [CommonAdapter.to_dict]
      rw [if_neg (by simp [ht]), if_pos hq, dictSet_append_new qt hne1,
          dictSet_append_new qn hne2t, List.append_assoc]
      exact rfl
    have h1 : dictGet? (cfg ++ [("_fw_q_type", qt), ("_fw_q_name", qn)])
        "_fw_q_type" = some qt := by
      rw [dictGet?_append_of_not_mem hne1]
      exact rfl
    have hname : dictGet? (cfg ++ [("_fw_q_type", qt), ("_fw_q_name", qn)])
        "_fw_q_name" = some qn := by
      rw [dictGet?_append_of_not_mem hne2]
      exact rfl
    have htf2 : dictGet? (cfg ++ [("_fw_q_type", qt), ("_fw_q_name", qn)])
        "_fw_template_file" = none := by
      rw [dictGet?_append_of_not_mem hne3]
      exact rfl
    have hfil : List.filter (fun p => ! pyStartsWith p.1 "_fw")
        (cfg ++ [("_fw_q_type", qt), ("_fw_q_name", qn)]) = cfg :=
      hfilter _ (by exact rfl)
    rw [hm, from_dict_eval env _ qt h1, hname, htf2, hfil,
        init_fields env qt (some qn) none cfg hsup]
    simp only [Except.ok.injEq, CommonAdapter.mk.injEq, eq_self_iff_true, true_and]
    refine ⟨ht.symm, hsc.symm, ?_, hcfg⟩
    rw [if_neg (hqn hq)]
  · -- name and template both differ from their defaults
    have hne2t : ∀ p ∈ cfg ++ [("_fw_q_type", qt)], p.1 ≠ "_fw_q_name" :=
      keys_ne_append hne2 (keys_ne_singleton qt (by decide))
    have hne3t : ∀ p ∈ (cfg ++ [("_fw_q_type", qt)]) ++ [("_fw_q_name", qn)],
        p.1 ≠ "_fw_template_file" :=
      keys_ne_append (keys_ne_append hne3 (keys_ne_singleton qt (by decide)))
        (keys_ne_singleton qn (by decide))
    have hm : CommonAdapter.to_dict env ⟨qt, tf, sc, qn, cfg⟩ =
        cfg ++ [("_fw_q_type", qt), ("_fw_q_name", qn), ("_fw_template_file", tf)] := by
      simp only [CommonAdapter.to_dict]
      rw [if_pos ht, if_pos hq, dictSet_append_new qt hne1,
          dictSet_append_new qn hne2t, dictSet_append_new tf hne3t,
          List.append_assoc, List.append_assoc]
      exact rfl
    have h1 : dictGet? (cfg ++ [("_fw_q_type", qt), ("_fw_q_name", qn),
        ("_fw_template_file", tf)]) "_fw_q_type" = some qt := by
      rw [dictGet?_append_of_not_mem hne1]
      exact rfl
    have hname : dictGet? (cfg ++ [("_fw_q_type", qt), ("_fw_q_name", qn),
        ("_fw_template_file", tf)]) "_fw_q_name" = some qn := by
      rw [dictGet?_append_of_not_mem hne2]
      exact rfl
    have htf2 : dictGet? (cfg ++ [("_fw_q_type", qt), ("_fw_q_name", qn),
        ("_fw_template_file", tf)]) "_fw_template_file" = some tf := by
      rw [dictGet?_append_of_not_mem hne3]
      exact rfl
    have hfil : List.filter (fun p => ! pyStartsWith p.1 "_fw")
        (cfg ++ [("_fw_q_type", qt), ("_fw_q_name", qn), ("_fw_template_file", tf)]) = cfg :=
      hfilter _ (by exact rfl)
    rw [hm, from_dict_eval env _ qt h1, hname, htf2, hfil,
        init_fields env qt (some qn) (some tf) cfg hsup]
    simp only [Except.ok.injEq, CommonAdapter.mk.injEq, eq_self_iff_true, true_and]
    refine ⟨?_, hsc.symm, ?_, hcfg⟩
    · rcases htmpl with h | ⟨t, htt⟩
      · exact absurd h ht
      · rw [htt, hab t]
    · rw [if_neg (hqn hq)]

theorem init_ok_elim {env : OsEnv} {qt : String} {qn tf : Option String}
    {kw : List (String × String)} {a : CommonAdapter}
    (h : CommonAdapter.init env qt qn tf kw = Except.ok a) :
    qt ∈ supported_q_types ∧ a = initResult env qt qn tf kw := by
  unfold CommonAdapter.init at h
  by_cases hs : qt ∈ supported_q_types
  · rw [if_pos hs] at h
    refine ⟨hs, ?_⟩
    injection h with h2
    exact h2.symm
  · rw [if_neg hs] at h
    simp at h

theorem pyGetItem_three (l : List String) :
    pyGetItem l 3 =
      match l.get? 3 with
      | some x => Except.ok x
      | none => Except.error PyErr.indexError := rfl

theorem njobsLine_neutral (a : CommonAdapter) (username : String) (st : NjobsSt)
    (l : String) (hh : pyStartsWith (pyLower l) "job" = false)
    (hu : pyIn username l = false) :
    njobsLine a username st l = Except.ok st := by
  unfold njobsLine
  rw [hh, hu]
  exact rfl

theorem njobsFold_error_no_header (a : CommonAdapter) (username : String)
    (st : NjobsSt) (hst : st.state_idx = none) :
    ∀ (pre : List String) (l : String) (post : List String),
      (∀ x ∈ pre, pyStartsWith (pyLower x) "job" = false ∧ pyIn username x = false) →
      pyStartsWith (pyLower l) "job" = false → pyIn username l = true →
      njobsFold a username st (pre ++ l :: post) =
        Except.error (PyErr.nameError "state_index") := by
  obtain ⟨cnt, sidx, qidx⟩ := st
  dsimp only at hst
  subst hst
  intro pre
  induction pre with
  | nil =>
    intro l post _ hlh hlu
    rw [List.nil_append]
    show njobsFold a username ⟨cnt, none, qidx⟩ (l :: post) = _
    unfold njobsFold njobsLine
    rw [hlh, hlu]
    exact rfl
  | cons x rest ih =>
    intro l post hpre hlh hlu
    have hx := hpre x (List.mem_cons_self x rest)
    rw [List.cons_append]
    show njobsFold a username ⟨cnt, none, qidx⟩ (x :: (rest ++ l :: post)) = _
    unfold njobsFold
    rw [njobsLine_neutral a username ⟨cnt, none, qidx⟩ x hx.1 hx.2]
    exact ih l post (fun y hy => hpre y (List.mem_cons_of_mem x hy)) hlh hlu

theorem get_njobs_nonzero (a : CommonAdapter) (username : String)
    (p : Int × String × String) (h : p.1 ≠ 0) :
    a.get_njobs_in_queue username p =
      (Except.ok none,
       [LogEvent.error ["Error trying to get the number of jobs in the queue",
                        "The error response reads: " ++ p.2.2]]) := by
  unfold CommonAdapter.get_njobs_in_queue
  rw [if_neg h]

theorem submit_invocations (a : CommonAdapter) (ef : String → Bool)
    (popen : List String → Option (Int × String × String)) (script : String)
    (hs : ef script = true) :
    (a.submit_to_queue ef popen script).2.2 = [[a.submit_cmd, script]] := by
  unfold CommonAdapter.submit_to_queue
  rw [hs, if_neg (by simp)]
  dsimp only
  cases hpo : popen [a.submit_cmd, script] with
  | none => rfl
  | some pr =>
    dsimp only
    by_cases hrc : pr.1 = 0
    · rw [if_pos hrc]
      cases hpj : a.parse_jobid pr.2.1 with
      | ok j => rfl
      | error e => rfl
    · rw [if_neg hrc]

/-- C1: for PBS, a status table with a header row and one matching
non-completed (R) row yields a count of 0 when no queue option is
configured, not the 1 the specification states: the source counts a
non-completed row only inside the branch requiring a configured queue
whose truncated name occurs in the queue token of the row, and has no else
branch counting rows otherwise. With a matching queue option the same
table yields 1. -/
theorem claim1_no_default_counting :
    pbsA.parse_njobs qstatOut "bob" = Except.ok 0 ∧
    pbsQA.parse_njobs qstatOut "bob" = Except.ok 1 ∧
    dictGet? pbsA.cfg "queue" = none ∧
    dictGet? pbsQA.cfg "queue" = some "batch" :=
  ⟨rfl, rfl, rfl, rfl⟩

/-- C2 counterexample: an adapter created with the open-configuration entry
("_fw_q_name", "sneaky") round-trips through to_dict and from_dict into an
adapter whose queue name became "sneaky" and whose open configuration is
empty, so the round trip is not the identity for arbitrary open keys. -/
theorem claim2_fw_key_not_round_tripped :
    CommonAdapter.init env0 "PBS" none none [("_fw_q_name", "sneaky")] = Except.ok c2a ∧
    CommonAdapter.from_dict env0 (CommonAdapter.to_dict env0 c2a) =
      Except.ok { q_type := "PBS", template_file := "QADIR/PBS_template.txt",
                  submit_cmd := "qsub", q_name := "sneaky", cfg := [] } ∧
    c2a.q_name = "PBS" ∧ ("sneaky" : String) ≠ "PBS" ∧
    c2a.cfg ≠ ([] : List (String × String)) :=
  ⟨rfl, rfl, rfl, by decide, by decide⟩

/-- C2 (amended): for every adapter built by the constructor whose
open-configuration keys do not begin with the reserved prefix _fw,
from_dict applied to to_dict reconstructs the identical adapter (queue
type, queue name, template file and open configuration), given that
os.path.abspath is idempotent. -/
theorem claim2_round_trip_amended (env : OsEnv)
    (hab : ∀ s, env.abspath (env.abspath s) = env.abspath s)
    (qt : String) (qn tf : Option String) (kw : List (String × String))
    (a : CommonAdapter)
    (hinit : CommonAdapter.init env qt qn tf kw = Except.ok a)
    (hfw : ∀ p ∈ a.cfg, pyStartsWith p.1 "_fw" = false) :
    CommonAdapter.from_dict env (CommonAdapter.to_dict env a) = Except.ok a := by
  obtain ⟨hsup, ha⟩ := init_ok_elim hinit
  subst ha
  refine round_trip_core env hab _ hsup rfl ?_ hfw ?_ ?_
  · exact keysNodup_dictUpdate List.nodup_nil
  · rcases tf with _ | t
    · exact Or.inl rfl
    · exact Or.inr ⟨t, rfl⟩
  · rcases qn with _ | n
    · intro hne
      exact absurd rfl hne
    · by_cases hn : n = ""
      · intro hne
        exfalso
        apply hne
        show (if n = "" then qt else n) = qt
        rw [if_pos hn]
      · intro _
        show (if n = "" then qt else n) ≠ ""
        rw [if_neg hn]
        exact hn

/-- C2 witness: a concrete SGE adapter with a custom name, template and one
open entry round-trips to itself. -/
theorem claim2_round_trip_amended_witness :
    CommonAdapter.from_dict env0 (CommonAdapter.to_dict env0 c2w) = Except.ok c2w :=
  claim2_round_trip_amended env0 (fun _ => rfl) "SGE" (some "fast")
    (some "/tmp/tpl.txt") [("walltime", "1:00:00")] c2w rfl (by decide)

/-- C3: construction succeeds exactly for the queue types PBS, SGE and
SLURM, and for every other type it fails with the ValueError carrying the
unsupported-queue-type message. -/
theorem claim3_unsupported_queue_type (env : OsEnv) (qt : String)
    (qn tf : Option String) (kw : List (String × String)) :
    ((∃ a, CommonAdapter.init env qt qn tf kw = Except.ok a) ↔
      (qt = "PBS" ∨ qt = "SGE" ∨ qt = "SLURM")) ∧
    (¬ (qt = "PBS" ∨ qt = "SGE" ∨ qt = "SLURM") →
      CommonAdapter.init env qt qn tf kw =
        Except.error (PyErr.valueError (unsupportedMsg qt))) := by
  have hmem : qt ∈ supported_q_types ↔ (qt = "PBS" ∨ qt = "SGE" ∨ qt = "SLURM") := by
    simp [supported_q_types]
  constructor
  · constructor
    · rintro ⟨a, ha⟩
      exact hmem.mp (init_ok_elim ha).1
    · intro h
      rw [init_fields env qt qn tf kw (hmem.mpr h)]
      exact ⟨_, rfl⟩
  · intro h
    unfold CommonAdapter.init
    rw [if_neg (fun hc => h (hmem.mp hc))]

/-- C3 witness: the unsupported type LSF is rejected with the ValueError. -/
theorem claim3_unsupported_queue_type_witness :
    CommonAdapter.init env0 "LSF" none none [] =
      Except.error (PyErr.valueError (unsupportedMsg "LSF")) :=
  (claim3_unsupported_queue_type env0 "LSF" none none []).2 (by decide)

/-- C4: for a SLURM adapter, job-id parsing splits stdout on whitespace,
takes the 4th token and interprets it as an integer; fewer than four tokens
give an IndexError and a token that is no integer literal gives a
ValueError, and the canonical sbatch confirmation line parses to 123456. -/
theorem claim4_slurm_jobid_parse (a : CommonAdapter) (out : String)
    (h : a.q_type = "SLURM") :
    (∀ t n, (pySplit out).get? 3 = some t → pyInt t = some n →
      a.parse_jobid out = Except.ok (JobId.intId n)) ∧
    ((pySplit out).length < 4 → a.parse_jobid out = Except.error PyErr.indexError) ∧
    (∀ t, (pySplit out).get? 3 = some t → pyInt t = none →
      a.parse_jobid out =
        Except.error (PyErr.valueError ("invalid literal for int: " ++ t))) ∧
    a.parse_jobid "Submitted batch job 123456" = Except.ok (JobId.intId 123456) := by
  have hrun : ∀ s, a.parse_jobid s =
      match (pySplit s).get? 3 with
      | some t =>
        match pyInt t with
        | some n => Except.ok (JobId.intId n)
        | none => Except.error (PyErr.valueError ("invalid literal for int: " ++ t))
      | none => Except.error PyErr.indexError := by
    intro s
    unfold CommonAdapter.parse_jobid
    rw [if_pos h, pyGetItem_three]
    cases hg : (pySplit s).get? 3 with
    | none => rfl
    | some t => rfl
  refine ⟨?_, ?_, ?_, ?_⟩
  · intro t n hts hn
    rw [hrun out, hts]
    show (match pyInt t with
      | some n => Except.ok (JobId.intId n)
      | none => Except.error (PyErr.valueError ("invalid literal for int: " ++ t))) =
      Except.ok (JobId.intId n)
    rw [hn]
  · intro hlen
    rw [hrun out, List.get?_eq_none.mpr (by omega)]
  · intro t hts hn
    rw [hrun out, hts]
    show (match pyInt t with
      | some n => Except.ok (JobId.intId n)
      | none => Except.error (PyErr.valueError ("invalid literal for int: " ++ t))) =
      Except.error (PyErr.valueError ("invalid literal for int: " ++ t))
    rw [hn]
  · rw [hrun "Submitted batch job 123456"]
    exact rfl

/-- C4 witness: the concrete SLURM adapter parses the sbatch confirmation
line to the integer job id 123456. -/
theorem claim4_slurm_jobid_parse_witness :
    slurmA.parse_jobid "Submitted batch job 123456" = Except.ok (JobId.intId 123456) :=
  (claim4_slurm_jobid_parse slurmA "Submitted batch job 123456" rfl).2.2.2

/-- C5: for PBS and SGE adapters, job-id parsing returns the first run of
decimal digits of stdout as text, fails with the RuntimeError when no digit
occurs, and the two canonical outputs parse to "1234" and "44275". -/
theorem claim5_pbs_sge_jobid_parse (a : CommonAdapter) (out : String)
    (h : a.q_type = "PBS" ∨ a.q_type = "SGE") :
    (∀ s, firstDigitRun out = some s → a.parse_jobid out = Except.ok (JobId.strId s)) ∧
    (firstDigitRun out = none →
      a.parse_jobid out = Except.error (PyErr.runtimeError "Unable to parse jobid")) ∧
    a.parse_jobid "1234.servername" = Except.ok (JobId.strId "1234") ∧
    a.parse_jobid "Your job 44275 (\"jobname\") has been submitted" =
      Except.ok (JobId.strId "44275") := by
  have hns : ¬ a.q_type = "SLURM" := by
    rcases h with h | h <;> rw [h] <;> decide
  have hrun : ∀ s, a.parse_jobid s =
      match firstDigitRun s with
      | some x => Except.ok (JobId.strId x)
      | none => Except.error (PyErr.runtimeError "Unable to parse jobid") := by
    intro s
    unfold CommonAdapter.parse_jobid
    rw [if_neg hns]
  refine ⟨?_, ?_, ?_, ?_⟩
  · intro s hs
    rw [hrun out, hs]
  · intro hs
    rw [hrun out, hs]
  · rw [hrun "1234.servername"]
    exact rfl
  · rw [hrun "Your job 44275 (\"jobname\") has been submitted"]
    exact rfl

/-- C5 witness: the concrete PBS adapter parses a qsub output to the
textual job id "1234". -/
theorem claim5_pbs_sge_jobid_parse_witness :
    pbsA.parse_jobid "1234.servername" = Except.ok (JobId.strId "1234") :=
  (claim5_pbs_sge_jobid_parse pbsA "1234.servername" (Or.inl rfl)).2.2.1

/-- C6: submitting a script whose path does not exist fails with the
ValueError naming the script, and the list of launched commands is empty:
no subprocess is invoked. -/
theorem claim6_script_not_found (a : CommonAdapter) (ef : String → Bool)
    (popen : List String → Option (Int × String × String)) (script : String)
    (h : ef script = false) :
    a.submit_to_queue ef popen script =
      (Except.error (PyErr.valueError ("Cannot find script file located at: " ++ script)),
       [], []) := by
  unfold CommonAdapter.submit_to_queue
  rw [h, if_pos rfl]

/-- C6 witness: a concrete missing script is rejected with no launch. -/
theorem claim6_script_not_found_witness :
    pbsA.submit_to_queue (fun _ => false) (fun _ => none) "job.sh" =
      (Except.error (PyErr.valueError ("Cannot find script file located at: " ++ "job.sh")),
       [], []) :=
  claim6_script_not_found pbsA (fun _ => false) (fun _ => none) "job.sh" rfl

/-- C7 counterexample: with a zero status exit code whose output contains
the username before any header line, get_njobs_in_queue propagates the
NameError from the parse instead of degrading to a logged no-result, so the
claim that no runtime failure makes the call raise is false. -/
theorem claim7_parse_error_raises :
    (pbsA.get_njobs_in_queue "bob" (0, "bob 0 R", "")).1 =
      Except.error (PyErr.nameError "state_index") := rfl

/-- C7 (amended): after a successful construction and with the script
present, submit_to_queue never raises (every runtime failure is logged and
yields no job id), and get_njobs_in_queue degrades a nonzero status exit to
a logged no-result; but an output-parse failure on a zero status exit
propagates as an exception rather than being swallowed. -/
theorem claim7_amended_no_raise (a : CommonAdapter) (ef : String → Bool)
    (popen : List String → Option (Int × String × String)) (script username : String)
    (p : Int × String × String) (hs : ef script = true) :
    (∃ r, (a.submit_to_queue ef popen script).1 = Except.ok r) ∧
    (p.1 ≠ 0 → a.get_njobs_in_queue username p =
      (Except.ok none,
       [LogEvent.error ["Error trying to get the number of jobs in the queue",
                        "The error response reads: " ++ p.2.2]])) ∧
    (∀ n, p.1 = 0 → a.parse_njobs p.2.1 username = Except.ok n →
      (a.get_njobs_in_queue username p).1 = Except.ok (some n)) ∧
    (∀ e, p.1 = 0 → a.parse_njobs p.2.1 username = Except.error e →
      (a.get_njobs_in_queue username p).1 = Except.error e) := by
  refine ⟨?_, fun h => get_njobs_nonzero a username p h, ?_, ?_⟩
  · unfold CommonAdapter.submit_to_queue
    rw [hs, if_neg (by simp)]
    dsimp only
    cases hpo : popen [a.submit_cmd, script] with
    | none => exact ⟨none, rfl⟩
    | some pr =>
      dsimp only
      by_cases hrc : pr.1 = 0
      · rw [if_pos hrc]
        cases hpj : a.parse_jobid pr.2.1 with
        | ok j => exact ⟨some j, rfl⟩
        | error e => exact ⟨none, rfl⟩
      · rw [if_neg hrc]
        exact ⟨none, rfl⟩
  · intro n h0 hp
    unfold CommonAdapter.get_njobs_in_queue
    rw [if_pos h0, hp]
  · intro e h0 hp
    unfold CommonAdapter.get_njobs_in_queue
    rw [if_pos h0, hp]

/-- C7 witness: the amended claim at a concrete PBS adapter, an existing
script with an unlaunchable submit binary, and a failed status query. -/
theorem claim7_amended_no_raise_witness :
    (∃ r, (pbsA.submit_to_queue (fun _ => true) (fun _ => none) "job.sh").1 =
      Except.ok r) ∧
    ((1 : Int) ≠ 0 → pbsA.get_njobs_in_queue "bob" ((1 : Int), "", "boom") =
      (Except.ok none,
       [LogEvent.error ["Error trying to get the number of jobs in the queue",
                        "The error response reads: " ++ "boom"]])) ∧
    (∀ n, (1 : Int) = 0 → pbsA.parse_njobs "" "bob" = Except.ok n →
      (pbsA.get_njobs_in_queue "bob" ((1 : Int), "", "boom")).1 = Except.ok (some n)) ∧
    (∀ e, (1 : Int) = 0 → pbsA.parse_njobs "" "bob" = Except.error e →
      (pbsA.get_njobs_in_queue "bob" ((1 : Int), "", "boom")).1 = Except.error e) :=
  claim7_amended_no_raise pbsA (fun _ => true) (fun _ => none) "job.sh" "bob"
    (1, "", "boom") rfl

/-- C8: when the status command exits nonzero (per the specification a
timeout of the external Command runner also surfaces this way),
get_njobs_in_queue returns None rather than a count and logs an error whose
second message carries the captured stderr. -/
theorem claim8_status_failure_returns_none (a : CommonAdapter) (username : String)
    (p : Int × String × String) (h : p.1 ≠ 0) :
    a.get_njobs_in_queue username p =
      (Except.ok none,
       [LogEvent.error ["Error trying to get the number of jobs in the queue",
                        "The error response reads: " ++ p.2.2]]) :=
  get_njobs_nonzero a username p h

/-- C8 witness: a concrete nonzero exit yields no count and the stderr in
the error log. -/
theorem claim8_status_failure_returns_none_witness :
    sgeA.get_njobs_in_queue "bob" ((2 : Int), "", "qstat: cannot connect") =
      (Except.ok none,
       [LogEvent.error ["Error trying to get the number of jobs in the queue",
                        "The error response reads: " ++ "qstat: cannot connect"]]) :=
  claim8_status_failure_returns_none sgeA "bob" (2, "", "qstat: cannot connect")
    (by decide)

/-- C9: for every adapter built by the constructor, the submit command is
sbatch for SLURM and qsub otherwise, submission launches exactly that
command with the script path as its sole further argument, and the status
command is squeue with the format and user options for SLURM and qstat with
the user option otherwise. -/
theorem claim9_commands (env : OsEnv) (qt : String) (qn tf : Option String)
    (kw : List (String × String)) (a : CommonAdapter) (username script : String)
    (ef : String → Bool) (popen : List String → Option (Int × String × String))
    (hinit : CommonAdapter.init env qt qn tf kw = Except.ok a)
    (hs : ef script = true) :
    a.submit_cmd = (if qt = "SLURM" then "sbatch" else "qsub") ∧
    (a.submit_to_queue ef popen script).2.2 = [[a.submit_cmd, script]] ∧
    a.get_status_cmd username =
      (if qt = "SLURM" then ["squeue", "-o \"%u\"", "-u", username]
       else ["qstat", "-u", username]) := by
  obtain ⟨hsup, ha⟩ := init_ok_elim hinit
  subst ha
  exact ⟨rfl, submit_invocations _ ef popen script hs, rfl⟩

/-- C9 witness: the concrete SLURM adapter with a successful launch. -/
theorem claim9_commands_witness :
    slurmA.submit_cmd = (if "SLURM" = "SLURM" then "sbatch" else "qsub") ∧
    (slurmA.submit_to_queue (fun _ => true)
      (fun _ => some (0, "Submitted batch job 7", "")) "j.sh").2.2 =
      [[slurmA.submit_cmd, "j.sh"]] ∧
    slurmA.get_status_cmd "bob" =
      (if "SLURM" = "SLURM" then ["squeue", "-o \"%u\"", "-u", "bob"]
       else ["qstat", "-u", "bob"]) :=
  claim9_commands env0 "SLURM" none none [] slurmA "bob" "j.sh" (fun _ => true)
    (fun _ => some (0, "Submitted batch job 7", "")) rfl rfl

/-- C10: for PBS and SGE, when a line containing the username occurs before
any header line starting with job (case-insensitively), the state column
variable is still unbound at that line and the parse fails with the
NameError instead of returning a count. -/
theorem claim10_header_required (a : CommonAdapter) (out username : String)
    (hq : ¬ a.q_type = "SLURM")
    (pre : List String) (l : String) (post : List String)
    (hsplit : pyLines out = pre ++ l :: post)
    (hpre : ∀ x ∈ pre, pyStartsWith (pyLower x) "job" = false ∧
      pyIn username x = false)
    (hlh : pyStartsWith (pyLower l) "job" = false)
    (hlu : pyIn username l = true) :
    a.parse_njobs out username = Except.error (PyErr.nameError "state_index") := by
  unfold CommonAdapter.parse_njobs
  rw [if_neg hq, hsplit,
      njobsFold_error_no_header a username ⟨0, none, none⟩ rfl pre l post hpre hlh hlu]
  exact rfl

/-- C10 witness: a PBS status output consisting only of a row for the user
and no header fails with the NameError. -/
theorem claim10_header_required_witness :
    pbsA.parse_njobs "bob 0 R" "bob" = Except.error (PyErr.nameError "state_index") :=
  claim10_header_required pbsA "bob 0 R" "bob" (by decide) [] "bob 0 R" [] rfl
    (fun x hx => absurd hx (List.not_mem_nil x)) rfl rfl
